import Mathlib

/-!
Verification of the tidb2dw replication core: a shallow embedding of the
merge-statement generator, the DDL translator, the snapshot stage loader,
and the replication phase orchestrator, with theorems checking the
natural-language specification against the code.
-/

set_option maxRecDepth 8192

namespace Tidb2dw

/-- Embeds `cloudstorage.TableCol` (the column descriptor consumed by both
`snowsql.GenMergeInto` and `redshiftsql.GenDDLViaColumnsDiff`): name, type,
optional default value, precision, scale, nullability and primary-key flag,
all string-typed as in the Go struct. -/
structure TableCol where
  name : String
  tp : String := ""
  colDefault : Option String := none
  precision : String := ""
  scale : String := ""
  nullable : String := ""
  isPK : String := ""
deriving DecidableEq, Repr, Inhabited

/-- Embeds `cloudstorage.TableDefinition`: schema name, table name, ordered
column list and the DDL action type tag (`timodel.ActionType`, a numeric
code). -/
structure TableDefinition where
  schema : String := ""
  table : String
  ttype : Nat := 0
  columns : List TableCol
deriving DecidableEq, Repr

/-- `timodel.ActionCreateSchema` -/
def ActionCreateSchema : Nat := 1
/-- `timodel.ActionDropSchema` -/
def ActionDropSchema : Nat := 2
/-- `timodel.ActionCreateTable` -/
def ActionCreateTable : Nat := 3
/-- `timodel.ActionDropTable` -/
def ActionDropTable : Nat := 4
/-- `timodel.ActionTruncateTable` -/
def ActionTruncateTable : Nat := 11
/-- `timodel.ActionRenameTables` -/
def ActionRenameTables : Nat := 47

/-- The `selectStat` list built at snowsql/sql.go:359-363: `$1` is projected
as the change flag and data column `i` (0-based) is projected from `$(i+5)`. -/
def selectStat (td : TableDefinition) : List String :=
  "$1 AS \"METADATA$FLAG\"" ::
    (List.range td.columns.length).map
      (fun i => "$" ++ toString (i + 5) ++ " AS " ++ (td.columns.getD i default).name)

/-- The `pkColumn` list built at snowsql/sql.go:365-372: names of the
columns whose `IsPK` field is the string `"true"`. -/
def pkColumn (td : TableDefinition) : List String :=
  (td.columns.filter (fun col => col.isPK == "true")).map (fun col => col.name)

/-- The `onStat` list built at snowsql/sql.go:365-372: one `T.c = S.c`
equation per primary-key column. -/
def onStat (td : TableDefinition) : List String :=
  (td.columns.filter (fun col => col.isPK == "true")).map
    (fun col => "T." ++ col.name ++ " = S." ++ col.name)

/-- The `updateStat` list built at snowsql/sql.go:374-377: one
`c = S.c` assignment per column (source iterates over every column, the
primary-key columns included). -/
def updateStat (td : TableDefinition) : List String :=
  td.columns.map (fun col => col.name ++ " = S." ++ col.name)

/-- The `insertStat` list built at snowsql/sql.go:379-382. -/
def insertStat (td : TableDefinition) : List String :=
  td.columns.map (fun col => col.name)

/-- The `valuesStat` list built at snowsql/sql.go:384-387. -/
def valuesStat (td : TableDefinition) : List String :=
  td.columns.map (fun col => "S." ++ col.name)

/-- Embeds `snowsql.GenMergeInto` (sql.go:358-416): the MERGE statement text,
assembled exactly as the `fmt.Sprintf` template at sql.go:390-413 (tab
characters included). The function is total: it returns a statement string
for every table definition, wiring the six clause lists into the template. -/
def GenMergeInto (td : TableDefinition) (filePath stageName : String) : String :=
  "MERGE INTO " ++ td.table ++ " AS T USING\n" ++
  "\t\t(\n" ++
  "\t\t\tSELECT\n" ++
  "\t\t\t\t" ++ String.intercalate ",\n" (selectStat td) ++ "\n" ++
  "\t\t\tFROM '@" ++ stageName ++ "/" ++ filePath ++ "'\n" ++
  "\t\t\tQUALIFY row_number() over (partition by " ++
    String.intercalate ", " (pkColumn td) ++ " order by $4 desc) = 1\n" ++
  "\t\t) AS S\n" ++
  "\t\tON\n" ++
  "\t\t(\n" ++
  "\t\t\t" ++ String.intercalate " AND " (onStat td) ++ "\n" ++
  "\t\t)\n" ++
  "\t\tWHEN MATCHED AND S.METADATA$FLAG != 'D' THEN UPDATE SET " ++
    String.intercalate ", " (updateStat td) ++ "\n" ++
  "\t\tWHEN MATCHED AND S.METADATA$FLAG = 'D' THEN DELETE\n" ++
  "\t\tWHEN NOT MATCHED AND S.METADATA$FLAG != 'D' THEN INSERT (" ++
    String.intercalate ", " (insertStat td) ++ ") VALUES (" ++
    String.intercalate ", " (valuesStat td) ++ ");"

/-! ## Execution semantics of the generated MERGE statement

`GenMergeInto` emits a statement over a staged change file whose row layout
is fixed by the template at sql.go:390-404: `$1` is the change flag
(`'D'` marks a delete), `$4` is the commit timestamp used as ordering key,
and `$5`, `$6`, ... carry the data columns.  The definitions below give the
relational semantics of that statement text, clause by clause: the
`QUALIFY row_number() over (partition by pk order by $4 desc) = 1`
deduplication, the `ON` primary-key join, and the three `WHEN` branches
(there is no `WHEN NOT MATCHED ... = 'D'` branch in the template). -/

/-- One row of the staged change file referenced by the MERGE statement:
flag (`$1`), ordering key (`$4`), data column values (`$5`, `$6`, ...). -/
structure StagedRow where
  flag : String
  commitTs : Nat
  vals : List String
deriving DecidableEq, Repr

/-- Positions of the primary-key columns of a table definition (the columns
whose `IsPK` is `"true"`, as selected at sql.go:367-372). -/
def pkIndices (td : TableDefinition) : List Nat :=
  (List.range td.columns.length).filter
    (fun i => (td.columns.getD i default).isPK == "true")

/-- Primary-key tuple of a staged source row (`S.pk₁, ..., S.pkₖ`). -/
def pkOfSource (td : TableDefinition) (r : StagedRow) : List String :=
  (pkIndices td).map (fun i => r.vals.getD i "")

/-- Primary-key tuple of a target table row (`T.pk₁, ..., T.pkₖ`). -/
def pkOfTarget (td : TableDefinition) (t : List String) : List String :=
  (pkIndices td).map (fun i => t.getD i "")

/-- Semantics of the dedup subquery `QUALIFY row_number() over (partition by
pk order by $4 desc) = 1` (sql.go:396): keep a staged row exactly when no
row of the same primary-key partition has a larger ordering key. -/
def dedup (td : TableDefinition) (rows : List StagedRow) : List StagedRow :=
  rows.filter (fun r =>
    rows.all (fun s =>
      pkOfSource td s != pkOfSource td r || decide (s.commitTs ≤ r.commitTs)))

/-- The table row a staged row denotes on the table's column layout
(column `i` gets value `$((i)+5)`). -/
def rowOf (td : TableDefinition) (s : StagedRow) : List String :=
  (List.range td.columns.length).map (fun i => s.vals.getD i "")

/-- The row produced by the generated `UPDATE SET` clause (sql.go:374-377,
402): the source assigns `c = S.c` for **every** column of the table, the
primary-key columns included, so the updated target row is the source row. -/
def updateRowCode (td : TableDefinition) (_t : List String) (s : StagedRow) :
    List String :=
  (List.range td.columns.length).map (fun i => s.vals.getD i "")

/-- The row the spec's clause rule prescribes for a matched non-delete row
(spec §4.2: "update every non-key column from the source row"): key columns
keep the target's values, every other column takes the source's value. -/
def updateRowSpec (td : TableDefinition) (t : List String) (s : StagedRow) :
    List String :=
  (List.range td.columns.length).map (fun i =>
    if (pkIndices td).contains i then t.getD i "" else s.vals.getD i "")

/-- Semantics of the three `WHEN` clauses of the generated statement
(sql.go:402-404), parameterised by the matched-update row function:
a target row matched (primary-key equality, the `ON` clause) by a source
row is updated when the source flag is not `'D'` and deleted when it is;
unmatched source rows with flag other than `'D'` are inserted with all
columns; the template has no clause for an unmatched `'D'` row, so such a
row contributes nothing. -/
def mergeClauses (upd : TableDefinition → List String → StagedRow → List String)
    (td : TableDefinition) (target : List (List String))
    (src : List StagedRow) : List (List String) :=
  (target.filterMap (fun t =>
    match src.find? (fun s => pkOfTarget td t == pkOfSource td s) with
    | none => some t
    | some s => if s.flag == "D" then none else some (upd td t s))) ++
  (src.filter (fun s =>
    s.flag != "D" && target.all (fun t => pkOfTarget td t != pkOfSource td s))).map
      (rowOf td)

/-- Full semantics of the statement `GenMergeInto` emits: deduplicate the
staged batch, then apply the three merge clauses with the code's
all-columns `UPDATE SET`. -/
def mergeApply (td : TableDefinition) (target : List (List String))
    (rows : List StagedRow) : List (List String) :=
  mergeClauses updateRowCode td target (dedup td rows)

/-- Sequential application of a change batch in commit order: each event is
merged on its own (a batch of one) into the accumulated table state. -/
def seqApply (td : TableDefinition) (target : List (List String))
    (rows : List StagedRow) : List (List String) :=
  rows.foldl (fun st e => mergeApply td st [e]) target

/-! ## Default-value literal rendering (snowsql/sql.go and redshiftsql/ddl.go) -/

/-- Models acceptance of `strconv.ParseFloat(s, 64)` as used at
snowsql/sql.go:244 and redshiftsql/ddl.go:101: an optional sign, then either
the words inf/infinity/nan (any case), or a decimal mantissa (digits, with
an optional fractional point, at least one digit present) with an optional
`e`/`E` exponent (optional sign, at least one digit).  Go's hexadecimal
floats and digit-group underscores are not modelled. -/
def goParseFloatOk (s : String) : Bool :=
  let cs := s.data
  let cs := match cs with
    | c :: rest => if c = '+' || c = '-' then rest else cs
    | [] => []
  let lower := cs.map Char.toLower
  if lower = "inf".data || lower = "infinity".data || lower = "nan".data then
    true
  else
    let mant := lower.takeWhile (fun c => c ≠ 'e')
    let rest := lower.dropWhile (fun c => c ≠ 'e')
    let ip := mant.takeWhile Char.isDigit
    let rest2 := mant.dropWhile Char.isDigit
    let mantOk :=
      match rest2 with
      | [] => !ip.isEmpty
      | c :: fp => c = '.' && fp.all Char.isDigit && (!ip.isEmpty || !fp.isEmpty)
    let expOk :=
      match rest with
      | [] => true
      | _ :: ex =>
        let ex := match ex with
          | c :: r => if c = '+' || c = '-' then r else ex
          | [] => []
        !ex.isEmpty && ex.all Char.isDigit
    mantOk && expOk

/-- Embeds `snowsql.GetDefaultValueString` (sql.go:243-249): a value whose
string form parses as a float is returned as-is, any other value is wrapped
in single quotes. -/
def GetDefaultValueString (val : String) : String :=
  if goParseFloatOk val then val else "'" ++ val ++ "'"

/-- Embeds `redshiftsql.getDefaultString` (ddl.go:100-106), same rule as
`GetDefaultValueString`: numeric-parseable values unquoted, all others
single-quoted. -/
def getDefaultString (val : String) : String :=
  if goParseFloatOk val then val else "'" ++ val ++ "'"

/-- Embeds `tidbsql.TiDBColumnInfo` as scanned by `snowsql.GenCreateSchema`
(sql.go:263-274). -/
structure TiDBColumnInfo where
  columnName : String
  columnDefault : Option String := none
  isNullable : String := ""
  dataType : String := ""
  charMaxLength : Option Int := none
  numPrecision : Option Int := none
  numScale : Option Int := none
  dateTimePrec : Option Int := none
deriving DecidableEq, Repr

/-- Embeds the per-column rendering loop body of `snowsql.GenCreateSchema`
(sql.go:278-310): the data-type switch, the `NOT NULL` suffix, and the
default clause — note the template at sql.go:306 is `DEFAULT '%s'`, wrapping
the result of `GetDefaultValueString` in a second pair of quotes.  An
unrecognised data type contributes no type text (the Go code only prints a
warning); a nil length/precision pointer (which Go would fault on) is
rendered as 0. -/
def genColumnDef (column : TiDBColumnInfo) : String :=
  let base :=
    if ["text", "longtext", "mediumtext", "tinytext", "blob", "longblob",
        "mediumblob", "tinyblob"].contains column.dataType then
      column.columnName ++ " TEXT"
    else if ["varchar", "char", "binary", "varbinary"].contains column.dataType then
      column.columnName ++ " " ++ column.dataType.toUpper ++ "(" ++
        toString (column.charMaxLength.getD 0) ++ ")"
    else if ["int", "mediumint"].contains column.dataType then
      column.columnName ++ " INT"
    else if ["bigint", "tinyint", "smallint", "float", "double"].contains
        column.dataType then
      column.columnName ++ " " ++ column.dataType.toUpper
    else if ["decimal", "numeric"].contains column.dataType then
      column.columnName ++ " " ++ column.dataType.toUpper ++ "(" ++
        toString (column.numPrecision.getD 0) ++ ", " ++
        toString (column.numScale.getD 0) ++ ")"
    else if ["bool", "boolean"].contains column.dataType then
      column.columnName ++ " BOOLEAN"
    else if column.dataType == "date" then
      column.columnName ++ " DATE"
    else if ["datetime", "timestamp", "time"].contains column.dataType then
      column.columnName ++ " " ++ column.dataType.toUpper ++ "(" ++
        toString (column.dateTimePrec.getD 0) ++ ")"
    else ""
  let base := if column.isNullable == "false" then base ++ " NOT NULL" else base
  match column.columnDefault with
  | some d => base ++ " DEFAULT '" ++ GetDefaultValueString d ++ "'"
  | none => if column.isNullable == "true" then base ++ " DEFAULT NULL" else base

/-! ## Schema diff & DDL translation (redshiftsql/ddl.go) -/

/-- The diff action tags of `tidbsql.GetColumnDiff` as consumed by the
switch at ddl.go:72-89. -/
inductive ColumnAction where
  | ADD_COLUMN
  | DROP_COLUMN
  | MODIFY_COLUMN
  | RENAME_COLUMN
  | UNCHANGE
deriving DecidableEq, Repr

/-- Embeds `tidbsql.ColumnDiff`: an action tag plus the before/after column
descriptors (either may be absent depending on the action). -/
structure ColumnDiff where
  action : ColumnAction
  before : Option TableCol := none
  after : Option TableCol := none
deriving DecidableEq, Repr

/-- Embeds `redshiftsql.GetRedshiftColumnString` (ddl.go:113-129),
parameterised by `typeRender`, which abstracts `GetRedshiftTypeString`
(repository code outside the sources at hand): type text, then `NOT NULL`
for non-nullable columns, then the default clause rendered through
`getDefaultString` as `DEFAULT %s` (ddl.go:124). -/
def GetRedshiftColumnString (typeRender : TableCol → Except String String)
    (column : TableCol) : Except String String :=
  match typeRender column with
  | Except.error e => Except.error e
  | Except.ok typeStr =>
    let s := typeStr
    let s := if column.nullable == "false" then s ++ " NOT NULL" else s
    let s :=
      match column.colDefault with
      | some d => s ++ " DEFAULT " ++ getDefaultString d
      | none => if column.nullable == "true" then s ++ " DEFAULT NULL" else s
    Except.ok s

/-- One iteration of the diff loop of `GenDDLViaColumnsDiff`
(ddl.go:70-94): the statement an entry contributes (`none` for `UNCHANGE`,
whose `ddl` string stays empty and is not appended), or the error raised
for `MODIFY_COLUMN`. -/
def ddlOfDiffItem (typeRender : TableCol → Except String String)
    (table : String) (item : ColumnDiff) : Except String (Option String) :=
  match item.action with
  | ColumnAction.ADD_COLUMN =>
      match GetRedshiftColumnString typeRender (item.after.getD default) with
      | Except.error e => Except.error e
      | Except.ok colStr =>
          Except.ok (some ("ALTER TABLE " ++ table ++ " ADD COLUMN " ++ colStr ++ ";"))
  | ColumnAction.DROP_COLUMN =>
      Except.ok (some ("ALTER TABLE " ++ table ++ " DROP COLUMN " ++
        (item.before.getD default).name ++ ";"))
  | ColumnAction.MODIFY_COLUMN =>
      Except.error "Received modify column ddl, which is not supported by redshift yet"
  | ColumnAction.RENAME_COLUMN =>
      Except.ok (some ("ALTER TABLE " ++ table ++ " RENAME COLUMN " ++
        (item.before.getD default).name ++ " TO " ++
        (item.after.getD default).name ++ ";"))
  | ColumnAction.UNCHANGE => Except.ok none

/-- The diff loop of `GenDDLViaColumnsDiff` (ddl.go:69-94) over the
computed column diff, collecting the non-empty statements in order and
propagating the first error. -/
def ddlLoop (typeRender : TableCol → Except String String) (table : String) :
    List ColumnDiff → Except String (List String)
  | [] => Except.ok []
  | item :: rest =>
    match ddlOfDiffItem typeRender table item with
    | Except.error e => Except.error e
    | Except.ok d =>
      match ddlLoop typeRender table rest with
      | Except.error e => Except.error e
      | Except.ok ds =>
        match d with
        | some s => Except.ok (s :: ds)
        | none => Except.ok ds

/-- Embeds `redshiftsql.GenDDLViaColumnsDiff` (ddl.go:43-98).  The column
diff that the Go function obtains from `tidbsql.GetColumnDiff` (repository
code outside the sources at hand) is abstracted as the `columnDiff`
argument, and `GetRedshiftTypeString` as `typeRender`; the structural
dispatch on the action type tag (ddl.go:44-63) and the diff loop are
translated directly. -/
def GenDDLViaColumnsDiff (typeRender : TableCol → Except String String)
    (columnDiff : List ColumnDiff) (curTableDef : TableDefinition) :
    Except String (List String) :=
  if curTableDef.ttype = ActionTruncateTable then
    Except.ok ["TRUNCATE TABLE " ++ curTableDef.table]
  else if curTableDef.ttype = ActionDropTable then
    Except.ok ["DROP TABLE " ++ curTableDef.table]
  else if curTableDef.ttype = ActionCreateTable then
    Except.error "Received create table ddl, which should not happen"
  else if curTableDef.ttype = ActionRenameTables then
    Except.error ("Received rename table ddl, new change data can not be capture by TiCDC any more." ++
      "If you want to rename table, please start a new task to capture the new table")
  else if curTableDef.ttype = ActionDropSchema then
    Except.ok ["DROP SCHEMA " ++ curTableDef.schema ++ " CASCADE"]
  else if curTableDef.ttype = ActionCreateSchema then
    Except.error "Received create schema ddl, which should not happen"
  else
    ddlLoop typeRender curTableDef.table columnDiff

/-! ## Snapshot stage manager (cmd/snowflake/snapshot.go)

`loadSnapshotDataIntoSnowflake` is side-effecting: it creates a stage,
lists the object store, issues one `COPY INTO` per matching part file and
finally drops the stage.  It is embedded as a state-passing function from
an environment (the outcomes of the external calls) to the list of
warehouse/storage actions it performs plus its returned result. -/

/-- The externally visible actions of `loadSnapshotDataIntoSnowflake`. -/
inductive SnapAction where
  | createStage
  | listObjects
  | loadPart (filePathToWorkspace : String)
  | dropStage
deriving DecidableEq, Repr

/-- Outcomes of the external calls made by `loadSnapshotDataIntoSnowflake`:
whether `CreateExternalStage` succeeds, the keys `ListObjectsV2` returns
(or its error), which per-part `Exec` calls succeed, and whether
`DropStage` succeeds. -/
structure SnapEnv where
  createStageOk : Bool := true
  listResult : Except String (List String) := Except.ok []
  loadOk : String → Bool := fun _ => true
  dropStageOk : Bool := true

/-- The per-part load loop (snapshot.go:325-337): one `loadPart` action per
dumped snapshot in order; the first failing `Exec` returns its error
immediately, skipping the remaining parts. -/
def snapLoadLoop (loadOk : String → Bool) :
    List String → List SnapAction × Except String Unit
  | [] => ([], Except.ok ())
  | p :: rest =>
      if loadOk p then
        let (acts, res) := snapLoadLoop loadOk rest
        (SnapAction.loadPart p :: acts, res)
      else ([SnapAction.loadPart p], Except.error ("Failed to load " ++ p))

/-- The filtering step of `loadSnapshotDataIntoSnowflake`
(snapshot.go:300-323): keys with prefix `<workspace>/snapshot/<db>.<table>.`
and suffix `.csv` (`strings.HasPrefix`/`HasSuffix`, modelled at character
level), each with the leading workspace path trimmed off
(`strings.TrimPrefix`). -/
def dumpedSnapshotsOf (sourceDatabase sourceTable workspacePfx : String)
    (contents : List String) : List String :=
  let snapshotPfx := workspacePfx ++ "/snapshot/"
  let dumpFilePfx := snapshotPfx ++ sourceDatabase ++ "." ++ sourceTable ++ "."
  (contents.filter (fun k =>
    dumpFilePfx.data.isPrefixOf k.data && ".csv".data.isSuffixOf k.data)).map
    (fun k => k.drop workspacePfx.length)

/-- Embeds `loadSnapshotDataIntoSnowflake` (snapshot.go:278-345): create
the stage; list the objects; fail with "No snapshot files found" when the
**unfiltered** listing is empty (snapshot.go:312-314); filter the listing
to keys with prefix `<workspace>/snapshot/<db>.<table>.` and suffix
`.csv` (snapshot.go:317-323); load each filtered part, propagating the
first failure; drop the stage only after every part loaded. -/
def loadSnapshotDataIntoSnowflake (env : SnapEnv)
    (sourceDatabase sourceTable workspacePfx : String) :
    List SnapAction × Except String Unit :=
  if env.createStageOk = false then
    ([SnapAction.createStage], Except.error "Failed to create stage")
  else
    match env.listResult with
    | Except.error e =>
        ([SnapAction.createStage, SnapAction.listObjects], Except.error e)
    | Except.ok contents =>
        if contents.length = 0 then
          ([SnapAction.createStage, SnapAction.listObjects],
            Except.error "No snapshot files found")
        else
          let dumpedSnapshots := dumpedSnapshotsOf sourceDatabase sourceTable workspacePfx contents
          let (acts, res) := snapLoadLoop env.loadOk dumpedSnapshots
          match res with
          | Except.error e =>
              ([SnapAction.createStage, SnapAction.listObjects] ++ acts,
                Except.error e)
          | Except.ok _ =>
              ([SnapAction.createStage, SnapAction.listObjects] ++ acts ++
                 [SnapAction.dropStage],
                if env.dropStageOk then Except.ok ()
                else Except.error "Failed to drop stage")

/-! ## Replication phase orchestrator (the snowflake `run` closure)

The orchestrator reads the two durable markers, resolves a consistency
point when needed, registers the changefeed, replicates the snapshot and
starts incremental replication.  It is embedded as the list of actions a
run performs when every external call succeeds, as a function of the run
mode, the marker probes, the `--sink-uri` flag and the TSO the source
would answer with. -/

/-- `RunMode` (full / snapshot-only / incremental-only). -/
inductive RunMode where
  | full
  | snapshotOnly
  | incrementalOnly
deriving DecidableEq, Repr

/-- The externally visible actions of one orchestrator run:
`getCurrentTSO t` records that the source answered consistency point `t`;
`createChangefeed s` records a capture-job registration with `StartTs = s`
(`0` is the sentinel the capture service replaces by its own current
time); `replicateSnapshot t` records a snapshot replication anchored at
`t`; `replicateIncrement` records the incremental phase start. -/
inductive OrchAction where
  | getCurrentTSO (tso : Nat)
  | createChangefeed (startTs : Nat)
  | replicateSnapshot (snapshotTSO : Nat)
  | replicateIncrement
deriving DecidableEq, Repr

/-- Embeds the `run` closure of `NewSnowflakeCmd` (the orchestrator):
step 1 resolves the current TSO only when the `snapshot/loadinfo` marker
is absent, leaving `startTSO = 0` otherwise; step 2 registers the
changefeed, anchored at `startTSO`, when the mode requires one and either
marker is absent; step 3 replicates the snapshot (anchored at `startTSO`)
when the mode includes snapshot work and the loadinfo marker is absent;
step 4 starts incremental replication when the mode includes it.
External calls are assumed to succeed (any failure aborts the run without
touching the markers). -/
def runOrch (mode : RunMode) (metadataExist loadinfoExist : Bool)
    (sindURIStr : String) (currentTSO : Nat) : List OrchAction :=
  let startTSO := if loadinfoExist = false then currentTSO else 0
  (if loadinfoExist = false then [OrchAction.getCurrentTSO currentTSO] else []) ++
  (if mode = RunMode.full ∨ (mode = RunMode.incrementalOnly ∧ sindURIStr = "") then
     (if loadinfoExist = false ∨ metadataExist = false then
        [OrchAction.createChangefeed startTSO]
      else [])
   else []) ++
  (if (mode = RunMode.full ∨ mode = RunMode.snapshotOnly) ∧ loadinfoExist = false then
     [OrchAction.replicateSnapshot startTSO]
   else []) ++
  (if mode = RunMode.full ∨ mode = RunMode.incrementalOnly then
     [OrchAction.replicateIncrement]
   else [])

/-! ## The progress-poller handshake of `LoadSnapshotFromStage`
(snowsql/sql.go:165-241)

`LoadSnapshotFromStage` spawns a monitor goroutine, runs the blocking
`COPY INTO`, sends on the **unbuffered** channel `copyFinished`
(sql.go:236) and then waits for the goroutine.  The synchronisation
skeleton is embedded as two lists of pending channel operations with a
rendezvous step relation: on an unbuffered Go channel a send completes
only together with a matching receive. -/

/-- A pending operation on the `copyFinished` channel. -/
inductive COp where
  | send
  | recv
deriving DecidableEq, Repr

/-- Channel operations still ahead of the main goroutine once
`db.ExecContext` has returned (sql.go:235-238): the one blocking send on
`copyFinished`; only after it completes does the function reach `wg.Wait`
and return. -/
def mainAfterCopy : List COp := [COp.send]

/-- Channel operations the monitor goroutine can still engage in: with a
nil progress callback it returns before entering the select loop
(sql.go:201-203) and never receives; otherwise its select loop offers a
receive on `copyFinished` (sql.go:212-214). -/
def monitorOps (callbackNil : Bool) : List COp :=
  if callbackNil then [] else [COp.recv]

/-- Synchronous rendezvous on the unbuffered channel: a pending send and a
pending receive complete together; no other step exists. -/
inductive ChanStep : List COp × List COp → List COp × List COp → Prop where
  | rendezvous (m n : List COp) : ChanStep (COp.send :: m, COp.recv :: n) (m, n)

/-- Whether a rendezvous step is possible from a pair of pending-operation
lists: exactly when one side is at a send and the other at a receive. -/
def canStep : List COp × List COp → Bool
  | (COp.send :: _, COp.recv :: _) => true
  | _ => false

/-- `canStep` decides the step relation `ChanStep`. -/
theorem canStep_iff (st : List COp × List COp) :
    canStep st = true ↔ ∃ st', ChanStep st st' := by
  obtain ⟨m, n⟩ := st
  constructor
  · intro h
    match m, n, h with
    | COp.send :: m', COp.recv :: n', _ => exact ⟨(m', n'), ChanStep.rendezvous m' n'⟩
  · rintro ⟨st', h⟩
    cases h
    rfl

/-- With a non-nil progress callback the handshake completes: the monitor's
receive pairs with the main goroutine's send and both sides finish. -/
theorem chanStep_non_nil_callback :
    ChanStep (mainAfterCopy, monitorOps false) ([], []) :=
  ChanStep.rendezvous [] []

/-- Selects `replicateSnapshot` actions. -/
def isSnapshotAct : OrchAction → Bool
  | OrchAction.replicateSnapshot _ => true
  | _ => false

/-- Selects `getCurrentTSO` actions. -/
def isGetTSOAct : OrchAction → Bool
  | OrchAction.getCurrentTSO _ => true
  | _ => false

/-- Selects `createChangefeed` actions. -/
def isCreateCfAct : OrchAction → Bool
  | OrchAction.createChangefeed _ => true
  | _ => false

/-- Selects `dropStage` actions. -/
def isDropStageAct : SnapAction → Bool
  | SnapAction.dropStage => true
  | _ => false

/-! ## Claim theorems -/

/-- C3: a table definition with no primary-key column is **not** rejected.
`GenMergeInto` has no error path at all: on the single-column, zero-PK
table `t` it still returns a merge statement, with an empty
`partition by` list and an empty `ON` join condition (an implicit empty
key), exactly as shown by this evaluation. -/
theorem claimC3_zero_pk_not_rejected :
    GenMergeInto { table := "t", columns := [{ name := "v" }] } "f.csv" "stg" =
      "MERGE INTO t AS T USING\n\t\t(\n\t\t\tSELECT\n\t\t\t\t$1 AS \"METADATA$FLAG\",\n$5 AS v\n\t\t\tFROM '@stg/f.csv'\n\t\t\tQUALIFY row_number() over (partition by  order by $4 desc) = 1\n\t\t) AS S\n\t\tON\n\t\t(\n\t\t\t\n\t\t)\n\t\tWHEN MATCHED AND S.METADATA$FLAG != 'D' THEN UPDATE SET v = S.v\n\t\tWHEN MATCHED AND S.METADATA$FLAG = 'D' THEN DELETE\n\t\tWHEN NOT MATCHED AND S.METADATA$FLAG != 'D' THEN INSERT (v) VALUES (S.v);" := by
  rfl

/-- C5: with a nil progress callback the monitor goroutine exits before its
select loop, leaving no pending receive, while the main goroutine still has
its blocking send on the unbuffered `copyFinished` channel ahead of it — no
rendezvous step is possible, so the send blocks forever and
`LoadSnapshotFromStage` never returns (the poller teardown deadlocks the
load call instead of being synchronous and non-blocking). -/
theorem claimC5_nil_callback_deadlock :
    monitorOps true = [] ∧ mainAfterCopy = [COp.send] ∧
      canStep (mainAfterCopy, monitorOps true) = false :=
  ⟨rfl, rfl, rfl⟩

/-- C8: the Redshift path renders defaults with exactly one level of
quoting for non-numeric values and none for numeric values, but the
Snowflake path does not: `GenCreateSchema` wraps the already-quoted result
of `GetDefaultValueString` in a second pair of quotes (sql.go:306), so a
numeric default `5` is emitted quoted as `'5'` and a string default `abc`
is emitted double-quoted as `''abc''`. -/
theorem claimC8_snowflake_default_double_quoted :
    getDefaultString "5" = "5" ∧
    getDefaultString "abc" = "'abc'" ∧
    GetRedshiftColumnString (fun col => Except.ok (col.name ++ " INT"))
        { name := "v", nullable := "true", colDefault := some "abc" } =
      Except.ok "v INT DEFAULT 'abc'" ∧
    GetRedshiftColumnString (fun col => Except.ok (col.name ++ " INT"))
        { name := "v", nullable := "true", colDefault := some "5" } =
      Except.ok "v INT DEFAULT 5" ∧
    genColumnDef { columnName := "v", dataType := "int", isNullable := "true", columnDefault := some "5" } = "v INT DEFAULT '5'" ∧
    genColumnDef { columnName := "v", dataType := "int", isNullable := "true", columnDefault := some "abc" } = "v INT DEFAULT ''abc''" :=
  ⟨rfl, rfl, rfl, rfl, rfl, rfl⟩

/-- C4, counterexample: the listing contains one object, which does not
match the part-file naming convention, so the filtered set is empty — yet
`loadSnapshotDataIntoSnowflake` does not fail with "no files found": it
issues no load, drops the stage and returns success, because the emptiness
check at snapshot.go:312 runs on the **unfiltered** listing. -/
theorem claimC4_counterexample :
    loadSnapshotDataIntoSnowflake { listResult := Except.ok ["unrelated"] } "db" "tbl" "w" =
      ([SnapAction.createStage, SnapAction.listObjects, SnapAction.dropStage],
        Except.ok ()) := by
  rfl

/-- C4, amended: the "No snapshot files found" error is raised exactly when
the **unfiltered** listing is empty; when the listing is nonempty but no
object matches the naming convention, the loader issues no bulk-load
statement and succeeds silently after dropping the stage. -/
theorem claimC4_no_files_error_on_empty_listing :
    ∀ (env : SnapEnv) (db tbl w : String) (contents : List String),
      env.createStageOk = true → env.listResult = Except.ok contents →
      (contents = [] →
        loadSnapshotDataIntoSnowflake env db tbl w =
          ([SnapAction.createStage, SnapAction.listObjects],
            Except.error "No snapshot files found")) ∧
      (contents.length ≠ 0 → dumpedSnapshotsOf db tbl w contents = [] →
        loadSnapshotDataIntoSnowflake env db tbl w =
          ([SnapAction.createStage, SnapAction.listObjects, SnapAction.dropStage],
            if env.dropStageOk = true then Except.ok ()
            else Except.error "Failed to drop stage")) := by
  intro env db tbl w contents hcs hl
  constructor
  · intro hc
    subst hc
    simp [loadSnapshotDataIntoSnowflake, hcs, hl]
  · intro hne hdump
    simp [loadSnapshotDataIntoSnowflake, hcs, hl, hne, hdump, snapLoadLoop]

/-- C4, witness for the amended claim at concrete inputs: an empty listing
errors with "No snapshot files found"; a nonempty listing with no matching
object loads nothing and succeeds. -/
theorem claimC4_no_files_error_on_empty_listing_witness :
    loadSnapshotDataIntoSnowflake { listResult := Except.ok [] } "db" "tbl" "w" =
      ([SnapAction.createStage, SnapAction.listObjects],
        Except.error "No snapshot files found") ∧
    loadSnapshotDataIntoSnowflake { listResult := Except.ok ["x"] } "db" "tbl" "w" =
      ([SnapAction.createStage, SnapAction.listObjects, SnapAction.dropStage],
        Except.ok ()) :=
  ⟨(claimC4_no_files_error_on_empty_listing _ "db" "tbl" "w" [] rfl rfl).1 rfl,
   (claimC4_no_files_error_on_empty_listing _ "db" "tbl" "w" ["x"] rfl rfl).2
     (by decide) (by rfl)⟩

/-- C6: a run against a workspace whose `snapshot/loadinfo` marker is
present performs no snapshot replication and resolves no fresh consistency
point, in every mode and whatever the other inputs; and when the
`increment/metadata` marker is present as well, no changefeed is registered
either — phases already satisfied by markers are skipped. -/
theorem claimC6_rerun_skips_completed_phases :
    ∀ (mode : RunMode) (metadataExist : Bool) (sindURIStr : String) (currentTSO : Nat),
      (runOrch mode metadataExist true sindURIStr currentTSO).filter isSnapshotAct = [] ∧
      (runOrch mode metadataExist true sindURIStr currentTSO).filter isGetTSOAct = [] ∧
      (runOrch mode true true sindURIStr currentTSO).filter isCreateCfAct = [] := by
  intro mode me sink tso
  refine ⟨?_, ?_, ?_⟩ <;>
  · cases mode <;> cases me <;> by_cases hs : sink = "" <;>
      simp [runOrch, isSnapshotAct, isGetTSOAct, isCreateCfAct, hs]

/-- C7, counterexample: re-running the orchestrator in full mode after a
successful snapshot load (`loadinfo` marker present) but before capture
registration (`metadata` marker absent), with the source currently at TSO
57, registers the changefeed anchored at the sentinel `StartTs = 0` — the
run resolves no consistency point at all (no `getCurrentTSO` action), so
the capture job is anchored neither at a point obtained before the Stage
Manager ran nor at a freshly resolved one, and nothing ties the change
stream to the point at which the earlier run's snapshot was taken. -/
theorem claimC7_counterexample :
    runOrch RunMode.full false true "" 57 =
      [OrchAction.createChangefeed 0, OrchAction.replicateIncrement] := by
  rfl

/-- C7, amended: when the `loadinfo` marker is absent, a registered capture
job is anchored at the consistency point resolved as the run's first action
(before the Stage Manager runs) and any snapshot replication in the same
run is anchored at that same point — no gap within a single run; but when
the `loadinfo` marker is already present, any registered capture job is
anchored at the sentinel TSO `0`, delegating the start point to the capture
service, with no guaranteed relation to the earlier snapshot's consistency
point. -/
theorem claimC7_capture_anchor :
    ∀ (mode : RunMode) (metadataExist : Bool) (sindURIStr : String) (currentTSO t : Nat),
      (OrchAction.createChangefeed t ∈ runOrch mode metadataExist false sindURIStr currentTSO →
        t = currentTSO) ∧
      ((runOrch mode metadataExist false sindURIStr currentTSO).head? =
        some (OrchAction.getCurrentTSO currentTSO)) ∧
      (OrchAction.replicateSnapshot t ∈ runOrch mode metadataExist false sindURIStr currentTSO →
        t = currentTSO) ∧
      (OrchAction.createChangefeed t ∈ runOrch mode metadataExist true sindURIStr currentTSO →
        t = 0) := by
  intro mode me sink tso t
  refine ⟨?_, ?_, ?_, ?_⟩ <;>
  · cases mode <;> cases me <;> by_cases hs : sink = "" <;>
      simp [runOrch, hs]

/-- C7, witness for the amended claim: on a fresh full run at TSO 42 the
changefeed is anchored at 42; on a marker-resumed run at TSO 57 it is
anchored at 0. -/
theorem claimC7_capture_anchor_witness :
    (OrchAction.createChangefeed 42 ∈ runOrch RunMode.full false false "" 42) ∧
    (42 : Nat) = 42 ∧
    (OrchAction.createChangefeed 0 ∈ runOrch RunMode.full false true "" 57) ∧
    (0 : Nat) = 0 :=
  ⟨by decide, (claimC7_capture_anchor RunMode.full false "" 42 42).1 (by decide),
   by decide, (claimC7_capture_anchor RunMode.full false "" 57 0).2.2.2 (by decide)⟩

/-- Inserting an `UNCHANGE` entry anywhere in the diff list leaves the
output of the diff loop unchanged. -/
theorem ddlLoop_unchange (typeRender : TableCol → Except String String)
    (table : String) (b a : Option TableCol) :
    ∀ (xs ys : List ColumnDiff),
      ddlLoop typeRender table
        (xs ++ { action := ColumnAction.UNCHANGE, before := b, after := a } :: ys) =
      ddlLoop typeRender table (xs ++ ys) := by
  intro xs
  induction xs with
  | nil =>
      intro ys
      cases h : ddlLoop typeRender table ys <;>
        simp [ddlLoop, ddlOfDiffItem, h]
  | cons x xs ih =>
      intro ys
      simp [ddlLoop, ih ys]

/-- C9: a table definition carrying a structural action tag never emits
column-level DDL — each of the six structural tags yields either the single
structural statement or an explicit error, with no `ALTER TABLE` in any
output — and a column classified `UNCHANGE` by the diff contributes no DDL
statement to the output list, wherever it sits in the diff. -/
theorem claimC9_structural_tags_and_unchanged_columns :
    ∀ (typeRender : TableCol → Except String String)
      (columnDiff : List ColumnDiff) (td : TableDefinition),
      (td.ttype = ActionTruncateTable →
        GenDDLViaColumnsDiff typeRender columnDiff td =
          Except.ok ["TRUNCATE TABLE " ++ td.table]) ∧
      (td.ttype = ActionDropTable →
        GenDDLViaColumnsDiff typeRender columnDiff td =
          Except.ok ["DROP TABLE " ++ td.table]) ∧
      (td.ttype = ActionCreateTable →
        GenDDLViaColumnsDiff typeRender columnDiff td =
          Except.error "Received create table ddl, which should not happen") ∧
      (td.ttype = ActionRenameTables →
        GenDDLViaColumnsDiff typeRender columnDiff td =
          Except.error ("Received rename table ddl, new change data can not be capture by TiCDC any more." ++
            "If you want to rename table, please start a new task to capture the new table")) ∧
      (td.ttype = ActionDropSchema →
        GenDDLViaColumnsDiff typeRender columnDiff td =
          Except.ok ["DROP SCHEMA " ++ td.schema ++ " CASCADE"]) ∧
      (td.ttype = ActionCreateSchema →
        GenDDLViaColumnsDiff typeRender columnDiff td =
          Except.error "Received create schema ddl, which should not happen") ∧
      (∀ (xs ys : List ColumnDiff) (b a : Option TableCol) (table : String),
        ddlLoop typeRender table
          (xs ++ { action := ColumnAction.UNCHANGE, before := b, after := a } :: ys) =
        ddlLoop typeRender table (xs ++ ys)) := by
  intro typeRender columnDiff td
  refine ⟨?_, ?_, ?_, ?_, ?_, ?_, fun xs ys b a table => ddlLoop_unchange typeRender table b a xs ys⟩ <;>
  · intro h
    simp [GenDDLViaColumnsDiff, h, ActionTruncateTable, ActionDropTable,
      ActionCreateTable, ActionRenameTables, ActionDropSchema, ActionCreateSchema]

/-- C9, witness: at concrete inputs, a truncate-tagged definition emits the
single truncate statement, and dropping an `UNCHANGE` entry from a concrete
diff list does not change the loop's output. -/
theorem claimC9_structural_tags_and_unchanged_columns_witness :
    GenDDLViaColumnsDiff (fun _ => Except.ok "x INT")
        [{ action := ColumnAction.DROP_COLUMN, before := some { name := "x" } }]
        { table := "t", ttype := 11, columns := [] } =
      Except.ok ["TRUNCATE TABLE t"] ∧
    ddlLoop (fun _ => Except.ok "x INT") "t"
        ([{ action := ColumnAction.DROP_COLUMN, before := some { name := "x" } }] ++
          { action := ColumnAction.UNCHANGE, before := none, after := none } :: []) =
      ddlLoop (fun _ => Except.ok "x INT") "t"
        ([{ action := ColumnAction.DROP_COLUMN, before := some { name := "x" } }] ++ []) :=
  ⟨(claimC9_structural_tags_and_unchanged_columns (fun _ => Except.ok "x INT")
      [{ action := ColumnAction.DROP_COLUMN, before := some { name := "x" } }]
      { table := "t", ttype := 11, columns := [] }).1 rfl,
   (claimC9_structural_tags_and_unchanged_columns (fun _ => Except.ok "x INT")
      [] { table := "t", ttype := 0, columns := [] }).2.2.2.2.2.2
      [{ action := ColumnAction.DROP_COLUMN, before := some { name := "x" } }]
      [] none none "t"⟩

/-- When every part loads successfully the load loop issues one load per
part, in order, and succeeds. -/
theorem snapLoadLoop_all_ok (loadOk : String → Bool) :
    ∀ l : List String, l.all loadOk = true →
      snapLoadLoop loadOk l = (l.map SnapAction.loadPart, Except.ok ()) := by
  intro l
  induction l with
  | nil => intro _; rfl
  | cons p rest ih =>
      intro h
      simp only [List.all_cons, Bool.and_eq_true] at h
      simp [snapLoadLoop, h.1, ih h.2]

/-- When some part fails to load, the loop issues the loads up to and
including the first failing part and returns that part's error. -/
theorem snapLoadLoop_first_fail (loadOk : String → Bool) :
    ∀ l : List String, l.all loadOk = false →
      snapLoadLoop loadOk l =
        ((l.takeWhile loadOk).map SnapAction.loadPart ++
           [SnapAction.loadPart ((l.dropWhile loadOk).headD "")],
         Except.error ("Failed to load " ++ (l.dropWhile loadOk).headD "")) := by
  intro l
  induction l with
  | nil => intro h; simp at h
  | cons p rest ih =>
      intro h
      by_cases hp : loadOk p = true
      · have hrest : rest.all loadOk = false := by
          simpa [List.all_cons, hp] using h
        simp [snapLoadLoop, hp, ih hrest, List.takeWhile_cons, List.dropWhile_cons]
      · have hp' : loadOk p = false := by
          simpa using hp
        simp [snapLoadLoop, hp', List.takeWhile_cons, List.dropWhile_cons]

/-- C10: when the stage is created and the listing is nonempty, the loader
drops the stage exactly on the path where every filtered part loads
successfully: a failing part makes the call return that part's error
immediately — the issued actions stop at the first failing load and contain
no `DROP STAGE` — while on full success the stage is dropped after all
loads. -/
theorem claimC10_stage_dropped_only_on_full_success :
    ∀ (env : SnapEnv) (db tbl w : String) (contents : List String),
      env.createStageOk = true → env.listResult = Except.ok contents →
      contents.length ≠ 0 →
      ((dumpedSnapshotsOf db tbl w contents).all env.loadOk = false →
        loadSnapshotDataIntoSnowflake env db tbl w =
          ([SnapAction.createStage, SnapAction.listObjects] ++
             ((dumpedSnapshotsOf db tbl w contents).takeWhile env.loadOk).map
               SnapAction.loadPart ++
             [SnapAction.loadPart
               (((dumpedSnapshotsOf db tbl w contents).dropWhile env.loadOk).headD "")],
           Except.error ("Failed to load " ++
             ((dumpedSnapshotsOf db tbl w contents).dropWhile env.loadOk).headD "")) ∧
        (loadSnapshotDataIntoSnowflake env db tbl w).1.filter isDropStageAct = []) ∧
      ((dumpedSnapshotsOf db tbl w contents).all env.loadOk = true →
        loadSnapshotDataIntoSnowflake env db tbl w =
          ([SnapAction.createStage, SnapAction.listObjects] ++
             (dumpedSnapshotsOf db tbl w contents).map SnapAction.loadPart ++
             [SnapAction.dropStage],
           if env.dropStageOk = true then Except.ok ()
           else Except.error "Failed to drop stage")) := by
  intro env db tbl w contents hcs hl hne
  constructor
  · intro hfail
    have hmain :
        loadSnapshotDataIntoSnowflake env db tbl w =
          ([SnapAction.createStage, SnapAction.listObjects] ++
             ((dumpedSnapshotsOf db tbl w contents).takeWhile env.loadOk).map
               SnapAction.loadPart ++
             [SnapAction.loadPart
               (((dumpedSnapshotsOf db tbl w contents).dropWhile env.loadOk).headD "")],
           Except.error ("Failed to load " ++
             ((dumpedSnapshotsOf db tbl w contents).dropWhile env.loadOk).headD "")) := by
      simp [loadSnapshotDataIntoSnowflake, hcs, hl, hne,
        snapLoadLoop_first_fail env.loadOk _ hfail]
    refine ⟨hmain, ?_⟩
    rw [hmain]
    simp [isDropStageAct, List.filter_append, List.filter_eq_nil_iff]
  · intro hok
    simp [loadSnapshotDataIntoSnowflake, hcs, hl, hne,
      snapLoadLoop_all_ok env.loadOk _ hok]

/-- C10, witness: with one matching part whose load fails, the loader
returns the load error and never drops the stage; with the load succeeding,
the stage is dropped after the load. -/
theorem claimC10_stage_dropped_only_on_full_success_witness :
    loadSnapshotDataIntoSnowflake
        { listResult := Except.ok ["w/snapshot/db.tbl.0.csv"], loadOk := fun _ => false }
        "db" "tbl" "w" =
      ([SnapAction.createStage, SnapAction.listObjects,
        SnapAction.loadPart "/snapshot/db.tbl.0.csv"],
       Except.error "Failed to load /snapshot/db.tbl.0.csv") ∧
    loadSnapshotDataIntoSnowflake
        { listResult := Except.ok ["w/snapshot/db.tbl.0.csv"] } "db" "tbl" "w" =
      ([SnapAction.createStage, SnapAction.listObjects,
        SnapAction.loadPart "/snapshot/db.tbl.0.csv", SnapAction.dropStage],
       Except.ok ()) :=
  by
  have hd : dumpedSnapshotsOf "db" "tbl" "w" ["w/snapshot/db.tbl.0.csv"] =
      ["/snapshot/db.tbl.0.csv"] := by rfl
  constructor
  · have h := ((claimC10_stage_dropped_only_on_full_success
      { listResult := Except.ok ["w/snapshot/db.tbl.0.csv"], loadOk := fun _ => false }
      "db" "tbl" "w" ["w/snapshot/db.tbl.0.csv"] rfl rfl (by decide)).1
      (by rw [hd]; rfl)).1
    rw [hd] at h
    simpa [List.takeWhile_cons, List.dropWhile_cons] using h
  · have h := (claimC10_stage_dropped_only_on_full_success
      { listResult := Except.ok ["w/snapshot/db.tbl.0.csv"] }
      "db" "tbl" "w" ["w/snapshot/db.tbl.0.csv"] rfl rfl (by decide)).2
      (by rw [hd]; rfl)
    rw [hd] at h
    simpa using h

/-! ## Helper lemmas for the merge semantics -/

/-- A `filterMap` whose function maps every member to itself is the
identity. -/
theorem filterMap_some_id {α : Type} (f : α → Option α) :
    ∀ l : List α, (∀ a ∈ l, f a = some a) → l.filterMap f = l := by
  intro l
  induction l with
  | nil => intro _; rfl
  | cons a l ih =>
      intro h
      rw [List.filterMap_cons, h a (List.mem_cons_self a l),
        ih (fun b hb => h b (List.mem_cons_of_mem a hb))]

/-- `filterMap` only depends on the function's values on members. -/
theorem filterMap_congr_mem {α β : Type} (f g : α → Option β) :
    ∀ l : List α, (∀ a ∈ l, f a = g a) → l.filterMap f = l.filterMap g := by
  intro l
  induction l with
  | nil => intro _; rfl
  | cons a l ih =>
      intro h
      rw [List.filterMap_cons, List.filterMap_cons, h a (List.mem_cons_self a l),
        ih (fun b hb => h b (List.mem_cons_of_mem a hb))]

/-- Primary-key positions are positions into the column list. -/
theorem pkIndices_lt (td : TableDefinition) :
    ∀ i ∈ pkIndices td, i < td.columns.length := by
  intro i hi
  have := List.mem_filter.mp hi
  exact List.mem_range.mp this.1

/-- Reading a mapped range list below its length evaluates the function. -/
theorem getD_range_map (n : Nat) (f : Nat → String) (i : Nat) (h : i < n) :
    ((List.range n).map f).getD i "" = f i := by
  rw [List.getD_eq_getElem?_getD, List.getElem?_map, List.getElem?_range h]
  rfl

/-- Reading the denoted table row of a staged row below the column count
reads the staged value. -/
theorem rowOf_getD (td : TableDefinition) (e : StagedRow) (i : Nat)
    (h : i < td.columns.length) :
    (rowOf td e).getD i "" = e.vals.getD i "" :=
  getD_range_map td.columns.length _ i h

/-- On a matched pair (equal primary-key tuples) the code's all-columns
update row coincides with the spec's keep-keys update row. -/
theorem updateRow_eq (td : TableDefinition) (t : List String) (s : StagedRow)
    (h : pkOfTarget td t = pkOfSource td s) :
    updateRowCode td t s = updateRowSpec td t s := by
  unfold updateRowCode updateRowSpec
  apply List.map_congr_left
  intro i _
  by_cases hmem : i ∈ pkIndices td
  · have hpt := List.map_eq_map_iff.mp h i hmem
    simp only [List.getD_eq_getElem?_getD] at hpt
    simp [hmem, hpt]
  · simp [hmem]

/-- The spec's four clause rules (§4.2 step 3), written from the spec's
words: merge a deduplicated source set against the target on primary-key
equality; matched and flag ≠ delete → update every non-key column from the
source row; matched and flag = delete → delete the target row; not matched
and flag ≠ delete → insert a new row with all columns; not matched and
flag = delete → no-op. -/
def specMergeRules (td : TableDefinition) (target : List (List String))
    (src : List StagedRow) : List (List String) :=
  (target.filterMap (fun t =>
    match src.find? (fun s => pkOfTarget td t == pkOfSource td s) with
    | none => some t
    | some s => if s.flag == "D" then none else some (updateRowSpec td t s))) ++
  (src.filter (fun s =>
    s.flag != "D" && target.all (fun t => pkOfTarget td t != pkOfSource td s))).map
      (rowOf td)

/-- C1: for a table definition with at least one primary-key column the
statement `GenMergeInto` emits implements exactly the spec's four clause
rules: its semantics on any target table and staged batch coincides with
`specMergeRules` applied to the deduplicated batch.  The two differ only in
the matched-non-delete clause — the code's `UPDATE SET` assigns every
column, the spec's rule only the non-key columns — and primary-key equality
of matched rows makes the resulting rows identical. -/
theorem claimC1_merge_implements_spec_clause_rules :
    ∀ (td : TableDefinition) (target : List (List String)) (rows : List StagedRow),
      pkColumn td ≠ [] →
      mergeApply td target rows = specMergeRules td target (dedup td rows) := by
  intro td target rows _
  unfold mergeApply mergeClauses specMergeRules
  apply congrArg (· ++ _)
  apply filterMap_congr_mem
  intro t _
  cases hfind : (dedup td rows).find? (fun s => pkOfTarget td t == pkOfSource td s) with
  | none => rfl
  | some s =>
      have hps := List.find?_some hfind
      have heq : pkOfTarget td t = pkOfSource td s := beq_iff_eq.mp hps
      cases hflag : s.flag == "D" <;>
        simp [hflag, updateRow_eq td t s heq]

/-- C1, witness at the concrete two-column table with primary key `id`. -/
theorem claimC1_merge_implements_spec_clause_rules_witness :
    pkColumn { table := "t", columns := [{ name := "id", isPK := "true" }, { name := "name" }] } ≠ [] ∧
    mergeApply { table := "t", columns := [{ name := "id", isPK := "true" }, { name := "name" }] }
        [["5", "x"], ["7", "y"]]
        [{ flag := "U", commitTs := 1, vals := ["5", "a"] },
         { flag := "D", commitTs := 2, vals := ["5", ""] }] =
      specMergeRules { table := "t", columns := [{ name := "id", isPK := "true" }, { name := "name" }] }
        [["5", "x"], ["7", "y"]]
        (dedup { table := "t", columns := [{ name := "id", isPK := "true" }, { name := "name" }] }
          [{ flag := "U", commitTs := 1, vals := ["5", "a"] },
           { flag := "D", commitTs := 2, vals := ["5", ""] }]) :=
  ⟨by decide,
   claimC1_merge_implements_spec_clause_rules
     { table := "t", columns := [{ name := "id", isPK := "true" }, { name := "name" }] }
     [["5", "x"], ["7", "y"]]
     [{ flag := "U", commitTs := 1, vals := ["5", "a"] },
      { flag := "D", commitTs := 2, vals := ["5", ""] }] (by decide)⟩

/-- Membership in the deduplicated batch: a row survives exactly when no
row of its primary-key partition has a larger ordering key. -/
theorem dedup_mem (td : TableDefinition) (rows : List StagedRow) (r : StagedRow) :
    r ∈ dedup td rows ↔
      r ∈ rows ∧ ∀ s ∈ rows,
        pkOfSource td s = pkOfSource td r → s.commitTs ≤ r.commitTs := by
  simp only [dedup, List.mem_filter, List.all_eq_true, Bool.or_eq_true,
    bne_iff_ne, decide_eq_true_eq]
  constructor
  · rintro ⟨hr, hall⟩
    refine ⟨hr, fun s hs hpk => ?_⟩
    rcases hall s hs with hne | hle
    · exact absurd hpk hne
    · exact hle
  · rintro ⟨hr, hall⟩
    refine ⟨hr, fun s hs => ?_⟩
    by_cases hpk : pkOfSource td s = pkOfSource td r
    · exact Or.inr (hall s hs hpk)
    · exact Or.inl hpk

/-- Deduplicating a single-row batch keeps the row. -/
theorem dedup_singleton (td : TableDefinition) (e : StagedRow) :
    dedup td [e] = [e] := by
  simp [dedup]

/-- A batch of rows sharing one primary-key tuple, listed in strictly
ascending ordering-key order, deduplicates to exactly its last row. -/
theorem dedup_concat_sorted (td : TableDefinition) (l : List StagedRow)
    (r : StagedRow) (p : List String)
    (hsorted : List.Pairwise (fun a b => a.commitTs < b.commitTs) (l ++ [r]))
    (hpk : ∀ x ∈ l ++ [r], pkOfSource td x = p) :
    dedup td (l ++ [r]) = [r] := by
  unfold dedup
  rw [List.filter_append]
  have hlast : ∀ x ∈ l, x.commitTs < r.commitTs := by
    intro x hx
    exact (List.pairwise_append.mp hsorted).2.2 x hx r (List.mem_singleton.mpr rfl)
  have hl : List.filter
      (fun r' => (l ++ [r]).all (fun s =>
        pkOfSource td s != pkOfSource td r' || decide (s.commitTs ≤ r'.commitTs))) l = [] := by
    rw [List.filter_eq_nil_iff]
    intro x hx hall
    have hr := List.all_eq_true.mp hall r (by simp)
    rcases Bool.or_eq_true _ _ |>.mp hr with hne | hle
    · have hpx : pkOfSource td x = p := hpk x (List.mem_append_left _ hx)
      have hpr : pkOfSource td r = p := hpk r (by simp)
      exact bne_iff_ne.mp hne (hpr.trans hpx.symm)
    · exact absurd (decide_eq_true_eq.mp hle) (Nat.not_le_of_lt (hlast x hx))
  have hr : List.filter
      (fun r' => (l ++ [r]).all (fun s =>
        pkOfSource td s != pkOfSource td r' || decide (s.commitTs ≤ r'.commitTs))) [r] = [r] := by
    have hall : (l ++ [r]).all (fun s =>
        pkOfSource td s != pkOfSource td r || decide (s.commitTs ≤ r.commitTs)) = true := by
      rw [List.all_eq_true]
      intro s hs
      rcases List.mem_append.mp hs with hsl | hsr
      · exact Bool.or_eq_true _ _ |>.mpr (Or.inr
          (decide_eq_true_eq.mpr (Nat.le_of_lt (hlast s hsl))))
      · rw [List.mem_singleton.mp hsr]
        exact Bool.or_eq_true _ _ |>.mpr (Or.inr (decide_eq_true_eq.mpr (Nat.le_refl _)))
    simp only [List.filter_cons, hall, if_true, List.filter_nil]
  rw [hl, hr, List.nil_append]

/-- Inserting a staged row into a table at its own column layout yields a
row with the staged row's primary-key tuple. -/
theorem pkOfTarget_rowOf (td : TableDefinition) (e : StagedRow) (p : List String)
    (h : pkOfSource td e = p) : pkOfTarget td (rowOf td e) = p := by
  rw [← h]
  unfold pkOfTarget pkOfSource
  apply List.map_congr_left
  intro i hi
  exact rowOf_getD td e i (pkIndices_lt td i hi)

/-- The code's update row is the staged row's denoted table row. -/
theorem updateRowCode_eq_rowOf (td : TableDefinition) (t : List String)
    (s : StagedRow) : updateRowCode td t s = rowOf td s := rfl

/-- Merging an empty batch leaves the target unchanged. -/
theorem mergeApply_nil (td : TableDefinition) (target : List (List String)) :
    mergeApply td target [] = target := by
  unfold mergeApply mergeClauses
  rw [filterMap_some_id (fun t =>
    match List.find? (fun s => pkOfTarget td t == pkOfSource td s) (dedup td []) with
    | none => some t
    | some s => if s.flag == "D" then none else some (updateRowCode td t s))
    target (fun t _ => rfl)]
  simp [dedup]

/-- Single-event merge on a canonical state: the target is a block of rows
whose keys differ from `p` followed by at most one row with key `p`, and
the event has key `p`.  A delete event removes the `p`-row; a non-delete
event replaces it (or inserts it) with the event's denoted row. -/
theorem mergeClauses_singleton (td : TableDefinition) (e : StagedRow)
    (p : List String) (others pres : List (List String))
    (hothers : ∀ t ∈ others, pkOfTarget td t ≠ p)
    (hpres : pres = [] ∨ ∃ w, pres = [w] ∧ pkOfTarget td w = p)
    (he : pkOfSource td e = p) :
    mergeClauses updateRowCode td (others ++ pres) [e] =
      others ++ (if e.flag == "D" then [] else [rowOf td e]) := by
  unfold mergeClauses
  rw [List.filterMap_append]
  have hfo : others.filterMap (fun t =>
      match [e].find? (fun s => pkOfTarget td t == pkOfSource td s) with
      | none => some t
      | some s => if s.flag == "D" then none else some (updateRowCode td t s)) = others := by
    apply filterMap_some_id
    intro t ht
    have hne : (pkOfTarget td t == pkOfSource td e) = false := by
      rw [he]
      exact beq_eq_false_iff_ne.mpr (hothers t ht)
    simp [List.find?_cons, hne]
  rw [hfo]
  rcases hpres with rfl | ⟨w, rfl, hw⟩
  · have hallb : (others ++ ([] : List (List String))).all
        (fun t => pkOfTarget td t != pkOfSource td e) = true := by
      rw [List.all_eq_true]
      intro t ht
      rw [List.append_nil] at ht
      rw [he]
      exact bne_iff_ne.mpr (hothers t ht)
    cases hD : e.flag == "D"
    · have hflag : (e.flag != "D") = true := by simp [bne, hD]
      have hfilter : [e].filter (fun s => s.flag != "D" &&
          (others ++ ([] : List (List String))).all
            (fun t => pkOfTarget td t != pkOfSource td s)) = [e] := by
        simp [List.filter_cons, hflag, hallb]
        intro x hx
        rw [he]
        exact hothers x hx
      rw [hfilter]
      simp [hD, rowOf]
    · have hflag : (e.flag != "D") = false := by simp [bne, hD]
      have hfilter : [e].filter (fun s => s.flag != "D" &&
          (others ++ ([] : List (List String))).all
            (fun t => pkOfTarget td t != pkOfSource td s)) = [] := by
        simp [List.filter_cons, hflag]
      rw [hfilter]
      simp [hD]
  · have hbeq : (pkOfTarget td w == pkOfSource td e) = true := by
      rw [he, hw]
      exact beq_self_eq_true p
    have hwbne : (pkOfTarget td w != pkOfSource td e) = false := by
      rw [he, hw]
      exact bne_self_eq_false p
    have hfw : [w].filterMap (fun t =>
        match [e].find? (fun s => pkOfTarget td t == pkOfSource td s) with
        | none => some t
        | some s => if s.flag == "D" then none else some (updateRowCode td t s)) =
        if e.flag == "D" then [] else [rowOf td e] := by
      cases hD : e.flag == "D"
      · have hD' : ¬ e.flag = "D" := by simpa using hD
        simp [List.filterMap_cons, List.find?_cons, hbeq, hD, hD',
          updateRowCode_eq_rowOf]
      · have hD' : e.flag = "D" := by simpa using hD
        simp [List.filterMap_cons, List.find?_cons, hbeq, hD, hD']
    rw [hfw]
    have hinsert : [e].filter (fun s => s.flag != "D" &&
        (others ++ [w]).all (fun t => pkOfTarget td t != pkOfSource td s)) = [] := by
      simp [List.filter_cons, List.all_append, hwbne]
    rw [hinsert]
    simp

/-- Folding a same-key batch over a canonical state keeps the `others`
block fixed and evolves only the at-most-one `p`-row block. -/
theorem seqApply_canonical (td : TableDefinition) (p : List String) :
    ∀ (rows : List StagedRow) (others pres : List (List String)),
      (∀ r ∈ rows, pkOfSource td r = p) →
      (∀ t ∈ others, pkOfTarget td t ≠ p) →
      (pres = [] ∨ ∃ w, pres = [w] ∧ pkOfTarget td w = p) →
      seqApply td (others ++ pres) rows =
        others ++ rows.foldl
          (fun _pr e => if e.flag == "D" then [] else [rowOf td e]) pres := by
  intro rows
  induction rows with
  | nil => intro others pres _ _ _; rfl
  | cons e rest ih =>
      intro others pres hrows ho hpres
      have he : pkOfSource td e = p := hrows e (List.mem_cons_self e rest)
      have hstep : mergeApply td (others ++ pres) [e] =
          others ++ (if e.flag == "D" then [] else [rowOf td e]) := by
        unfold mergeApply
        rw [dedup_singleton]
        exact mergeClauses_singleton td e p others pres ho hpres he
      have hpres' : (if e.flag == "D" then [] else [rowOf td e]) = [] ∨
          ∃ w, (if e.flag == "D" then [] else [rowOf td e]) = [w] ∧
            pkOfTarget td w = p := by
        by_cases hD : (e.flag == "D") = true
        · rw [if_pos hD]
          exact Or.inl rfl
        · rw [if_neg hD]
          exact Or.inr ⟨rowOf td e, rfl, pkOfTarget_rowOf td e p he⟩
      simp only [seqApply, List.foldl_cons]
      rw [hstep]
      exact ih others _ (fun r hr => hrows r (List.mem_cons_of_mem e hr)) ho hpres'

/-- `all` is invariant under permutation. -/
theorem all_perm {α : Type} {l1 l2 : List α} (h : l1.Perm l2) (g : α → Bool) :
    l1.all g = l2.all g := by
  cases h1 : l1.all g <;> cases h2 : l2.all g
  · rfl
  · exfalso
    rcases List.all_eq_false.mp h1 with ⟨x, hx, hgx⟩
    exact hgx (List.all_eq_true.mp h2 x (h.mem_iff.mp hx))
  · exfalso
    rcases List.all_eq_false.mp h2 with ⟨x, hx, hgx⟩
    exact hgx (List.all_eq_true.mp h1 x (h.mem_iff.mpr hx))
  · rfl

/-- The merge clauses respect permutation of the target table. -/
theorem mergeClauses_perm_target
    (upd : TableDefinition → List String → StagedRow → List String)
    (td : TableDefinition) (src : List StagedRow)
    {t1 t2 : List (List String)} (h : t1.Perm t2) :
    (mergeClauses upd td t1 src).Perm (mergeClauses upd td t2 src) := by
  unfold mergeClauses
  have hins : src.filter (fun s => s.flag != "D" &&
      t1.all (fun t => pkOfTarget td t != pkOfSource td s)) =
    src.filter (fun s => s.flag != "D" &&
      t2.all (fun t => pkOfTarget td t != pkOfSource td s)) :=
    List.filter_congr (fun s _ => by rw [all_perm h])
  rw [hins]
  exact List.Perm.append (h.filterMap _) (List.Perm.refl _)

/-- Sequential application respects permutation of the initial target. -/
theorem seqApply_perm_target (td : TableDefinition) :
    ∀ (rows : List StagedRow) {t1 t2 : List (List String)}, t1.Perm t2 →
      (seqApply td t1 rows).Perm (seqApply td t2 rows) := by
  intro rows
  induction rows with
  | nil => intro t1 t2 h; exact h
  | cons e rest ih =>
      intro t1 t2 h
      simp only [seqApply, List.foldl_cons]
      have hstep : (mergeApply td t1 [e]).Perm (mergeApply td t2 [e]) := by
        unfold mergeApply
        exact mergeClauses_perm_target updateRowCode td (dedup td [e]) h
      exact ih hstep

/-- The spec's scenario table: primary key `id`, one payload column. -/
def tdScenario : TableDefinition :=
  { table := "t", columns := [{ name := "id", isPK := "true" }, { name := "name" }] }

/-- The spec's scenario batch
`[(U,1,pk=5,name="a"), (U,2,pk=5,name="b"), (D,3,pk=5)]`. -/
def batchScenario : List StagedRow :=
  [{ flag := "U", commitTs := 1, vals := ["5", "a"] },
   { flag := "U", commitTs := 2, vals := ["5", "b"] },
   { flag := "D", commitTs := 3, vals := ["5", ""] }]

/-- A target table holding row `pk=5` (and an unrelated row `pk=7`). -/
def targetScenario : List (List String) := [["5", "x"], ["7", "y"]]

/-- C2: the merge statement deduplicates by primary-key tuple keeping
exactly the rows with the maximum ordering key of their tuple; for a batch
of rows sharing one primary-key tuple, listed in ascending commit order
over a target with pairwise-distinct keys, the merge's net effect equals
(up to row order) applying every event one at a time in commit order; and
on the spec's scenario batch only the ordering-key-3 delete survives
deduplication and the merge deletes row `pk=5` (the updated row `"b"` never
appears). -/
theorem claimC2_dedup_and_commit_order_equivalence :
    (∀ (td : TableDefinition) (rows : List StagedRow) (r : StagedRow),
       r ∈ dedup td rows ↔ r ∈ rows ∧ ∀ s ∈ rows,
         pkOfSource td s = pkOfSource td r → s.commitTs ≤ r.commitTs) ∧
    (∀ (td : TableDefinition) (target : List (List String)) (rows : List StagedRow)
       (p : List String),
       List.Pairwise (fun a b => a.commitTs < b.commitTs) rows →
       (∀ r ∈ rows, pkOfSource td r = p) →
       List.Pairwise (fun t u => pkOfTarget td t ≠ pkOfTarget td u) target →
       (mergeApply td target rows).Perm (seqApply td target rows)) ∧
    dedup tdScenario batchScenario =
      [{ flag := "D", commitTs := 3, vals := ["5", ""] }] ∧
    mergeApply tdScenario targetScenario batchScenario = [["7", "y"]] ∧
    seqApply tdScenario targetScenario batchScenario = [["7", "y"]] := by
  refine ⟨dedup_mem, ?_, by decide, by decide, by decide⟩
  intro td target rows p hsorted hrows htgt
  rcases List.eq_nil_or_concat rows with rfl | ⟨l, r, rfl⟩
  · rw [mergeApply_nil]
    exact List.Perm.refl target
  · rw [List.concat_eq_append] at hsorted hrows ⊢
    have hr : pkOfSource td r = p := hrows r (by simp)
    have hfold : ∀ pres : List (List String),
        List.foldl (fun _pr e => if e.flag == "D" then [] else [rowOf td e])
          pres (l ++ [r]) = if r.flag == "D" then [] else [rowOf td r] := by
      intro pres
      rw [List.foldl_append]
      rfl
    by_cases hex : ∃ tk ∈ target, pkOfTarget td tk = p
    · obtain ⟨tk, htk, hpk_tk⟩ := hex
      obtain ⟨l1, l2, rfl⟩ := List.append_of_mem htk
      have hperm : (l1 ++ tk :: l2).Perm ((l1 ++ l2) ++ [tk]) := by
        rw [List.append_assoc]
        exact List.Perm.append_left l1 (List.perm_append_singleton tk l2).symm
      have hothers : ∀ t ∈ l1 ++ l2, pkOfTarget td t ≠ p := by
        intro t ht
        rcases List.mem_append.mp ht with h1 | h2
        · have := (List.pairwise_append.mp htgt).2.2 t h1 tk (List.mem_cons_self tk l2)
          rw [← hpk_tk]
          exact this
        · have hp2 := (List.pairwise_append.mp htgt).2.1
          have hne := (List.pairwise_cons.mp hp2).1 t h2
          rw [← hpk_tk]
          exact fun hh => hne hh.symm
      have h1p : (mergeApply td (l1 ++ tk :: l2) (l ++ [r])).Perm
          (mergeApply td ((l1 ++ l2) ++ [tk]) (l ++ [r])) := by
        unfold mergeApply
        exact mergeClauses_perm_target updateRowCode td _ hperm
      have h2e : mergeApply td ((l1 ++ l2) ++ [tk]) (l ++ [r]) =
          (l1 ++ l2) ++ (if r.flag == "D" then [] else [rowOf td r]) := by
        unfold mergeApply
        rw [dedup_concat_sorted td l r p hsorted hrows]
        exact mergeClauses_singleton td r p (l1 ++ l2) [tk] hothers
          (Or.inr ⟨tk, rfl, hpk_tk⟩) hr
      have h3e : seqApply td ((l1 ++ l2) ++ [tk]) (l ++ [r]) =
          (l1 ++ l2) ++ (if r.flag == "D" then [] else [rowOf td r]) := by
        rw [seqApply_canonical td p (l ++ [r]) (l1 ++ l2) [tk] hrows hothers
          (Or.inr ⟨tk, rfl, hpk_tk⟩), hfold]
      have h4p : (seqApply td ((l1 ++ l2) ++ [tk]) (l ++ [r])).Perm
          (seqApply td (l1 ++ tk :: l2) (l ++ [r])) :=
        seqApply_perm_target td (l ++ [r]) hperm.symm
      have hBC : mergeApply td ((l1 ++ l2) ++ [tk]) (l ++ [r]) =
          seqApply td ((l1 ++ l2) ++ [tk]) (l ++ [r]) := h2e.trans h3e.symm
      rw [← hBC] at h4p
      exact h1p.trans h4p
    · push_neg at hex
      have h2e : mergeApply td target (l ++ [r]) =
          target ++ (if r.flag == "D" then [] else [rowOf td r]) := by
        unfold mergeApply
        rw [dedup_concat_sorted td l r p hsorted hrows]
        have := mergeClauses_singleton td r p target [] hex (Or.inl rfl) hr
        rw [List.append_nil] at this
        exact this
      have h3e : seqApply td target (l ++ [r]) =
          target ++ (if r.flag == "D" then [] else [rowOf td r]) := by
        have := seqApply_canonical td p (l ++ [r]) target [] hrows hex (Or.inl rfl)
        rw [List.append_nil] at this
        rw [this, hfold]
      rw [h2e, h3e]

/-- C2, witness: the scenario batch is strictly ascending in ordering key,
shares tuple `["5"]`, and at these concrete inputs the merge's effect is
permutation-equal to the sequential commit-order application. -/
theorem claimC2_dedup_and_commit_order_equivalence_witness :
    List.Pairwise (fun a b => a.commitTs < b.commitTs) batchScenario ∧
    (mergeApply tdScenario targetScenario batchScenario).Perm
      (seqApply tdScenario targetScenario batchScenario) :=
  ⟨by decide,
   claimC2_dedup_and_commit_order_equivalence.2.1 tdScenario targetScenario
     batchScenario ["5"] (by decide) (by decide) (by decide)⟩

end Tidb2dw
